import Mathlib

/-!
Shallow embedding of the two ComfyUI custom nodes of this repository
(`Nodes/Code2Prompt.py`, `Nodes/NXMonorepo.py`) and of the node loader
(`__init__.py`), together with theorems settling the frozen claims about
the natural-language specification.

Modelling conventions:
* Python strings are Lean `String`s; the Python string primitives the code
  uses (`str.split`, `str.strip`, `str.splitlines`, `str.join`, slicing,
  `pathlib.Path.suffix/stem/parent`, `fnmatch.fnmatch`) are re-implemented
  below over `List Char` so that every definition reduces in the kernel.
* The filesystem, the git clone and the text decode are external effects;
  they enter the model as explicit data (a `FileEntry` carries the values
  `os.path.getsize` and `open(...).read()` would produce, a `RenderEnv`
  carries the clone outcome and the `glob` enumeration, the on-disk
  directory set is a characteristic function `String → Bool`).
* Python exceptions are modelled with `Except`: a raising computation
  returns `.error msg`, and a `try/except` boundary is a `match`.
-/

set_option maxRecDepth 1000000

namespace Spec2Proof

/-! ### Models of the Python string primitives used by the source -/

/-- Python `sep.join(parts)` (used as `"\n".join(...)` by both nodes). -/
def joinWith (sep : String) : List String → String
  | [] => ""
  | [x] => x
  | x :: y :: t => x ++ sep ++ joinWith sep (y :: t)

/-- Split a character list at every occurrence of the separator character;
the pieces keep their order and the separators are dropped.  Mirrors CPython
`str.split(sep)` for a one-character separator: the empty string yields
`[""]` and `n` separators yield `n+1` pieces. -/
def splitOnChar (c : Char) : List Char → List (List Char)
  | [] => [[]]
  | d :: t =>
    let r := splitOnChar c t
    if d == c then [] :: r
    else
      match r with
      | [] => [[d]]
      | h :: t' => (d :: h) :: t'

/-- Python `s.split(c)` for a single-character separator. -/
def pySplit (s : String) (c : Char) : List String :=
  (splitOnChar c s.data).map String.mk

/-- The whitespace characters Python `str.strip()` removes (the ASCII ones;
the source only ever strips pattern lines typed into a text box). -/
def isPySpace (c : Char) : Bool :=
  c == ' ' || c == '\t' || c == '\n' || c == '\r' || c == '\x0b' || c == '\x0c'

/-- Python `str.strip()`. -/
def pyStrip (s : String) : String :=
  ⟨((s.data.dropWhile isPySpace).reverse.dropWhile isPySpace).reverse⟩

/-- Python `str.splitlines()` restricted to `\n` separators: the empty
string has no lines, and a trailing newline does not open a final empty
line. -/
def pySplitlines (s : String) : List String :=
  if s.data.isEmpty then []
  else
    let parts := splitOnChar '\n' s.data
    let parts := if s.data.getLast? == some '\n' then parts.dropLast else parts
    parts.map String.mk

/-- Python slicing `s[:n]` (by code points, as CPython indexes strings). -/
def pyTake (s : String) (n : Nat) : String := ⟨s.data.take n⟩

/-- Python slicing `s[1:]` (used for the fenced-block language tag
`file['extension'][1:]`). -/
def dropFirst (s : String) : String := ⟨s.data.drop 1⟩

/-- Python `s.replace(c, d)` for one-character arguments (used by the
loader on `"_"` → `" "`). -/
def pyReplace (c d : Char) (s : String) : String :=
  ⟨s.data.map (fun x => if x == c then d else x)⟩

/-- The final path component: `pathlib.PurePosixPath(p).name` for the
slash-separated relative paths the renderer works with. -/
def pathName (p : String) : String := (pySplit p '/').getLastD ""

/-- `pathlib.Path(p).suffix`: the part of the final component from its last
dot on, empty when the last dot is leading or trailing (so `.env` and `a.`
have no suffix, `a.tar.gz` has suffix `.gz`). -/
def pySuffix (p : String) : String :=
  let cs := (pathName p).data
  if cs.contains '.' then
    let i := cs.length - 1 - (cs.reverse.indexOf '.')
    if 0 < i && i < cs.length - 1 then ⟨cs.drop i⟩ else ""
  else ""

/-- `pathlib.Path(p).stem`: the final component with its suffix removed. -/
def pyStem (p : String) : String :=
  let name := pathName p
  ⟨name.data.take (name.data.length - (pySuffix p).data.length)⟩

/-- `str(pathlib.Path(p).parent)` for the normalized slash-separated paths
the renderer produces: everything before the last slash, `.` when there is
no slash. -/
def pyParent (p : String) : String :=
  let parts := pySplit p '/'
  if parts.length ≤ 1 then "." else joinWith "/" parts.dropLast

/-- `fnmatch.fnmatch(name, pat)` for patterns built from literal
characters, `*` and `?` (every pattern the source's fixed ignore list uses;
`*` matches any run of characters, slashes included, exactly as in
`fnmatch`, which does not treat path separators specially).  The recursion
is driven by a fuel argument so that it is structural and kernel-reducible;
every recursive call shrinks `cs.length + ps.length` by at least one, so
any fuel above that sum is enough. -/
def globMatch : Nat → List Char → List Char → Bool
  | 0, _, _ => false
  | _ + 1, [], [] => true
  | fuel + 1, [], p :: ps => if p == '*' then globMatch fuel [] ps else false
  | _ + 1, _ :: _, [] => false
  | fuel + 1, c :: cs, p :: ps =>
    if p == '*' then globMatch fuel (c :: cs) ps || globMatch fuel cs (p :: ps)
    else if p == '?' then globMatch fuel cs ps
    else c == p && globMatch fuel cs ps

/-- `fnmatch.fnmatch(name, pat)` on strings. -/
def fnmatch (name pat : String) : Bool :=
  globMatch (name.length + pat.length + 1) name.data pat.data

/-- Does `hay` start with `needle`? -/
def startsWithChars : List Char → List Char → Bool
  | _, [] => true
  | [], _ :: _ => false
  | c :: cs, d :: ds => c == d && startsWithChars cs ds

/-- Does `hay` contain `needle` as a contiguous run? -/
def hasSubChars : List Char → List Char → Bool
  | [], needle => needle.isEmpty
  | c :: t, needle => startsWithChars (c :: t) needle || hasSubChars t needle

/-- Python `sub in s` for strings (substring occurrence). -/
def strContainsSub (s sub : String) : Bool := hasSubChars s.data sub.data

instance : DecidableEq (Except String String) := fun x y =>
  match x, y with
  | .ok a, .ok b => if h : a = b then .isTrue (by rw [h]) else .isFalse (by simp [h])
  | .error a, .error b => if h : a = b then .isTrue (by rw [h]) else .isFalse (by simp [h])
  | .ok _, .error _ => .isFalse (by simp)
  | .error _, .ok _ => .isFalse (by simp)

/-! ### `Nodes/Code2Prompt.py`: data model

A `FileEntry` is one entry of the recursive `glob` enumeration of the
cloned repository, carrying the answers the filesystem would give for it:
`os.path.isfile`, `os.path.getsize`, and the outcome of
`open(filepath, encoding='utf-8').read()` (`.error msg` when the read
raises, e.g. a `UnicodeDecodeError`). -/
structure FileEntry where
  /-- Path relative to the repository root (what `os.path.relpath` yields). -/
  path : String
  /-- `os.path.isfile(filepath)`. -/
  isfile : Bool
  /-- `os.path.getsize(filepath)`, in bytes. -/
  sizeBytes : Nat
  /-- Result of reading the file as utf-8 text. -/
  readResult : Except String String
  deriving DecidableEq

/-- The per-file record `analyze_file` builds.  The source stores the size
as the float `os.path.getsize(filepath) / 1024`; we keep the exact byte
count instead (the division by 1024 is exact in binary floating point for
any realistic size, so no information is lost). -/
structure AnalyzedFile where
  path : String
  sizeBytes : Nat
  content : String
  lines : Nat
  extension : String
  deriving DecidableEq

/-- `Code2PromptNode.SUPPORTED_EXTENSIONS` (a Python `set`; only
membership is ever used, so a list model is faithful). -/
def SUPPORTED_EXTENSIONS : List String :=
  [".js", ".jsx", ".ts", ".tsx", ".html", ".css", ".scss", ".sass",
   ".py", ".java", ".go", ".rb", ".php", ".cs",
   ".json", ".yml", ".yaml", ".toml", ".ini",
   ".md", ".rst",
   ".sh", ".bash",
   ".sql", ".graphql"]

/-- `Code2PromptNode.IGNORE_PATTERNS`. -/
def IGNORE_PATTERNS : List String :=
  ["node_modules/**", "venv/**", ".git/**", "**/*.min.js", "**/*.min.css",
   "**/dist/**", "**/build/**", "**/__pycache__/**", ".env*",
   "*.pyc", "*.pyo", "*.pyd"]

/-- `Code2PromptNode.should_process_file`: reject on any ignore/exclude
match; otherwise, when the include list is non-empty, accept exactly the
include matches; otherwise accept exactly the supported extensions. -/
def should_process_file (filepath : String)
    (include_patterns exclude_patterns : List String) : Bool :=
  if (IGNORE_PATTERNS ++ exclude_patterns).any (fun pattern => fnmatch filepath pattern) then
    false
  else if include_patterns ≠ [] then
    include_patterns.any (fun pattern => fnmatch filepath pattern)
  else
    SUPPORTED_EXTENSIONS.contains (pySuffix filepath)

/-- `Code2PromptNode.analyze_file`.  Returns the record (or `none` for a
skipped file) together with the list of diagnostic lines the call prints.
The source's oversize test is `file_size > max_size_kb` on the float
`getsize(filepath)/1024`; that division is exact, so the test is modelled
by the equivalent integer comparison `sizeBytes > 1024 * max_size_kb`.
Only the `except` branch prints a diagnostic; the oversize branch returns
`None` silently. -/
def analyze_file (filepath : String) (entry : FileEntry) (max_size_kb : Nat) :
    Option AnalyzedFile × List String :=
  if 1024 * max_size_kb < entry.sizeBytes then (none, [])
  else
    match entry.readResult with
    | .ok content =>
        (some { path := filepath
                sizeBytes := entry.sizeBytes
                content := content
                lines := (pySplitlines content).length
                extension := pySuffix filepath }, [])
    | .error e => (none, ["Error processing " ++ filepath ++ ": " ++ e])

/-- One iteration of the collection loop in `Code2PromptNode.execute`
below the cap check: the entry contributes a record exactly when it is a
file, passes `should_process_file` on its relative path, and
`analyze_file` (called on the absolute path `os.path.join(repo_dir,
rel_path)`) succeeds. -/
def processEntry (repo_dir : String) (max_size_kb : Nat)
    (include_list exclude_list : List String) (entry : FileEntry) :
    Option AnalyzedFile :=
  if entry.isfile && should_process_file entry.path include_list exclude_list then
    (analyze_file (repo_dir ++ "/" ++ entry.path) entry max_size_kb).1
  else none

/-- The `for filepath in glob.glob(...)` loop of `Code2PromptNode.execute`:
break as soon as the accepted count reaches `max_files`, otherwise append
the analyzed record when the entry qualifies. -/
def collectLoop (repo_dir : String) (max_files max_size_kb : Nat)
    (include_list exclude_list : List String) :
    List FileEntry → List AnalyzedFile → List AnalyzedFile
  | [], acc => acc.reverse
  | entry :: rest, acc =>
    if max_files ≤ acc.length then acc.reverse
    else
      match processEntry repo_dir max_size_kb include_list exclude_list entry with
      | some record => collectLoop repo_dir max_files max_size_kb include_list exclude_list rest (record :: acc)
      | none => collectLoop repo_dir max_files max_size_kb include_list exclude_list rest acc

/-- The analyzed-file list `Code2PromptNode.execute` accumulates. -/
def collectFiles (repo_dir : String) (entries : List FileEntry)
    (max_files max_size_kb : Nat) (include_list exclude_list : List String) :
    List AnalyzedFile :=
  collectLoop repo_dir max_files max_size_kb include_list exclude_list entries []

/-! ### `Nodes/Code2Prompt.py`: the three output renderers -/

/-- The string Python `"{:.2f}".format(size_bytes / 1024)` produces: the
exact value `size_bytes/1024` (the float is exact) rendered with two
decimals, rounding half to even as CPython's float formatting does.
`size_bytes * 25 / 256` is `size_bytes/1024 * 100` in lowest-step form. -/
def format2f (size_bytes : Nat) : String :=
  let q := size_bytes * 25
  let whole := q / 256
  let rem := q % 256
  let hundredths :=
    if 128 < rem then whole + 1
    else if rem < 128 then whole
    else if whole % 2 = 0 then whole else whole + 1
  toString (hundredths / 100) ++ "." ++
    (if hundredths % 100 < 10 then "0" else "") ++ toString (hundredths % 100)

/-- The five lines `generate_detailed_prompt` appends for one file. -/
def detailedBlock (file : AnalyzedFile) : List String :=
  ["\n## File: " ++ file.path,
   "Size: " ++ format2f file.sizeBytes ++ "KB | Lines: " ++ toString file.lines ++ "\n",
   "```" ++ dropFirst file.extension,
   file.content,
   "```\n"]

/-- `Code2PromptNode.generate_detailed_prompt`. -/
def generate_detailed_prompt (files : List AnalyzedFile) : String :=
  joinWith "\n" ("# Repository Code Analysis\n" :: files.flatMap detailedBlock)

/-- The `content_preview` expression of `generate_summary_prompt`:
`file['content'][:200] + "..." if len(file['content']) > 200 else
file['content']`. -/
def contentPreview (content : String) : String :=
  if 200 < content.length then pyTake content 200 ++ "..." else content

/-- The seven lines `generate_summary_prompt` appends for one file. -/
def summaryBlock (file : AnalyzedFile) : List String :=
  ["\n## " ++ file.path,
   "- Size: " ++ format2f file.sizeBytes ++ "KB",
   "- Lines: " ++ toString file.lines,
   "- Preview:",
   "```" ++ dropFirst file.extension,
   contentPreview file.content,
   "```\n"]

/-- `Code2PromptNode.generate_summary_prompt`. -/
def generate_summary_prompt (files : List AnalyzedFile) : String :=
  joinWith "\n" ("# Repository Summary\n" :: files.flatMap summaryBlock)

/-- The per-extension counting dict of `generate_architecture_summary`:
`file_types[ext] = file_types.get(ext, 0) + 1`, keyed in insertion order
as a Python dict is. -/
def bump : List (String × Nat) → String → List (String × Nat)
  | [], ext => [(ext, 1)]
  | (k, v) :: t, ext => if k = ext then (k, v + 1) :: t else (k, v) :: bump t ext

/-- `dir_structure.add(...)`: a Python `set` modelled as a list without
duplicates. -/
def addToSet (s : List String) (x : String) : List String :=
  if s.contains x then s else s ++ [x]

/-- Insertion into a sorted list of strings, by code-point order (the
order `sorted` uses on strings). -/
def insertSorted (x : String) : List String → List String
  | [] => [x]
  | y :: t => if x ≤ y then x :: y :: t else y :: insertSorted x t

/-- Python `sorted` on a collection of strings. -/
def sortStrings (l : List String) : List String := l.foldr insertSorted []

/-- The body of the `for file in files` loop of
`generate_architecture_summary`: count the extension, add the containing
directory to the set. -/
def archStep (st : List (String × Nat) × List String) (file : AnalyzedFile) :
    List (String × Nat) × List String :=
  (bump st.1 file.extension, addToSet st.2 (pyParent file.path))

/-- `Code2PromptNode.generate_architecture_summary`: one pass over the
records building the extension counts and the set of containing
directories, then the directories sorted and the counts in insertion
order; no file content is consulted. -/
def generate_architecture_summary (files : List AnalyzedFile) : String :=
  let st := files.foldl archStep ([], [])
  joinWith "\n"
    (["# Repository Architecture Summary\n", "## Directory Structure\n```"]
     ++ sortStrings st.2
     ++ ["```\n", "## File Distribution\n"]
     ++ st.1.map (fun p => "- " ++ p.1 ++ ": " ++ toString p.2 ++ " files"))

/-- Dispatch on `output_format` at the end of `Code2PromptNode.execute`
(`detailed` is the fallthrough branch). -/
def render_output (output_format : String) (files : List AnalyzedFile) : String :=
  if output_format = "architecture" then generate_architecture_summary files
  else if output_format = "summary" then generate_summary_prompt files
  else generate_detailed_prompt files

/-! ### `Nodes/Code2Prompt.py`: `execute` with its filesystem effects

The on-disk directory state is a characteristic function
`String → Bool`; the clone and the enumeration are supplied by a
`RenderEnv` since they are external effects. -/

/-- The external effects one invocation of the renderer observes. -/
structure RenderEnv where
  /-- Outcome of `git.Repo.clone_from` (raises with a message on failure). -/
  cloneResult : Except String Unit
  /-- The entries `glob.glob(os.path.join(repo_dir, '**/*'), recursive=True)`
  yields, as paths relative to the repository root. -/
  entries : List FileEntry

/-- The configured inputs of `Code2PromptNode.execute`. -/
structure RenderConfig where
  repository_url : String
  max_files : Nat
  max_file_size_kb : Nat
  output_format : String
  branch : String
  include_patterns : String
  exclude_patterns : String
  context_notes : String

/-- The pattern list comprehension of `execute`:
`[p.strip() for p in patterns.split('\n') if p.strip()]`. -/
def parsePatterns (s : String) : List String :=
  ((pySplit s '\n').map pyStrip).filter (fun p => p ≠ "")

/-- `Code2PromptNode.clone_repository`: compute the per-repository
temporary directory, remove a pre-existing one, `os.makedirs` it, then
clone into it.  Returns the raised message on clone failure — note the
directory has already been created at that point.  The result pairs the
`Except` outcome with the directory state when control leaves the call. -/
def clone_repository (fs : String → Bool) (cloneResult : Except String Unit)
    (cwd repo_url : String) : Except String String × (String → Bool) :=
  let temp_dir := cwd ++ "/temp_repos/" ++ pyStem repo_url
  let fs1 : String → Bool := fun d => if d = temp_dir then true else fs d
  match cloneResult with
  | .ok _ => (.ok temp_dir, fs1)
  | .error e => (.error e, fs1)

/-- The `try` block of `Code2PromptNode.execute`: parse the pattern lists,
clone, collect, render, prepend the context notes, then
`shutil.rmtree(repo_dir)` and return.  `.error` means the block raised;
the paired directory state is the state at that point. -/
def execute_body (env : RenderEnv) (cfg : RenderConfig) (cwd : String)
    (fs : String → Bool) : Except String String × (String → Bool) :=
  let include_list := parsePatterns cfg.include_patterns
  let exclude_list := parsePatterns cfg.exclude_patterns
  match clone_repository fs env.cloneResult cwd cfg.repository_url with
  | (.error e, fs1) => (.error e, fs1)
  | (.ok repo_dir, fs1) =>
    let analyzed_files :=
      collectFiles repo_dir env.entries cfg.max_files cfg.max_file_size_kb
        include_list exclude_list
    let output := render_output cfg.output_format analyzed_files
    let output :=
      if cfg.context_notes ≠ "" then
        "# Context Notes\n" ++ cfg.context_notes ++ "\n\n" ++ output
      else output
    let fs2 : String → Bool := fun d => if d = repo_dir then false else fs1 d
    (.ok output, fs2)

/-- `Code2PromptNode.execute`: the `try` body under the blanket
`except Exception` that turns any raised message into the returned error
text. -/
def Code2Prompt_execute (env : RenderEnv) (cfg : RenderConfig) (cwd : String)
    (fs : String → Bool) : String × (String → Bool) :=
  match execute_body env cfg cwd fs with
  | (.ok output, fs') => (output, fs')
  | (.error e, fs') => ("Error processing repository: " ++ e, fs')

/-! ### `Nodes/NXMonorepo.py`: the scaffold prompt assembler -/

/-- `NXMonorepoNode.generate_base_prompt`: the fixed workspace template
parameterized by the project name (the f-string of lines 29-92, with the
name spliced in at its six interpolation points). -/
def generate_base_prompt (project_name : String) : String :=
  "\nTask: Initialize an NX monorepo and create a pull request with the complete implementation.\n\nProject Requirements:\n\nProject name: "
  ++ project_name
  ++ "\n\n1. Initialize a new NX workspace with:\n   - Integrated monorepo style\n   - Apps directory structure\n   - Package-based scope (@"
  ++ project_name
  ++ ")\n   - TypeScript configuration\n   - ESLint setup\n   - Jest for testing\n\n2. Create the following applications:\n   - Frontend app using React + TypeScript\n   - Backend API using NestJS\n   - Admin dashboard using React + TypeScript\n\n3. Create shared libraries:\n   - @"
  ++ project_name
  ++ "/shared/types (TypeScript interfaces and types)\n   - @"
  ++ project_name
  ++ "/shared/ui (React components)\n   - @"
  ++ project_name
  ++ "/shared/utils (Helper functions)\n   - @"
  ++ project_name
  ++ "/shared/api-interfaces (API DTOs and interfaces)\n\n4. Set up the following configuration files:\n   - nx.json with cache and affected configuration\n   - .prettierrc with standard rules\n   - .eslintrc.json with TypeScript and React rules\n   - jest.config.js for each app and lib\n   - tsconfig.base.json with path aliases\n   - .gitignore with standard exclusions\n\n5. Include basic CI setup:\n   - GitHub Actions workflow for build and test\n   - Workspace lint configuration\n   - Build targets for all apps and libs\n\n6. Dependencies to include:\n   - @nx/react\n   - @nx/nest\n   - @nx/js\n   - @types/node\n   - typescript\n   - @testing-library/react\n   - jest\n   - eslint\n   - prettier\n\n7. Set up scripts in root package.json:\n   - build:all\n   - test:all\n   - lint:all\n   - serve:frontend\n   - serve:backend\n   - serve:admin\n\nImplementation Guidelines:\n- Follow NX best practices for module boundaries\n- Implement library categories (feature, ui, util, data-access)\n- Set up proper import restrictions\n- Configure dependency management\n"

/-- The default PR description `format_git_instructions` falls back to
when `pr_description` is empty. -/
def defaultPRDescription : String :=
  "Initialize NX monorepo structure with standard configuration and best practices"

/-- `NXMonorepoNode.format_git_instructions` (lines 94-118): the
version-control instruction template; the description falls back to the
default text when the supplied one is empty (Python truthiness of the
string). -/
def format_git_instructions (repository_url base_branch pr_title pr_description : String) :
    String :=
  "\nGit Operations:\n1. Clone the repository: "
  ++ repository_url
  ++ "\n2. Create a new branch from "
  ++ base_branch
  ++ "\n3. Implement all required files and configurations\n4. Stage all changes\n5. Create a pull request with:\n   - Title: "
  ++ pr_title
  ++ "\n   - Base branch: "
  ++ base_branch
  ++ "\n   - Description: "
  ++ (if pr_description ≠ "" then pr_description else defaultPRDescription)
  ++ "\n\nPlease include in the PR description:\n1. Development server startup instructions\n2. Test execution commands\n3. Build process instructions\n4. Component/module generation commands\n"

/-- The `prompt_parts` list `NXMonorepoNode.execute` builds: header, base
template, the conditional custom-requirements section (guarded by
`any([additional_apps, additional_libs, custom_dependencies])`), the
conditional positive/negative sections, then the git instructions. -/
def nx_prompt_parts (project_name positive_prompt negative_prompt repository_url
    base_branch pr_title additional_apps additional_libs custom_dependencies
    pr_description : String) : List String :=
  ["# NX Monorepo Generation and PR Creation\n", generate_base_prompt project_name]
  ++ (if additional_apps ≠ "" ∨ additional_libs ≠ "" ∨ custom_dependencies ≠ "" then
        ["\nCustom Requirements:"]
        ++ (if additional_apps ≠ "" then ["\nAdditional Applications:\n" ++ additional_apps] else [])
        ++ (if additional_libs ≠ "" then ["\nAdditional Libraries:\n" ++ additional_libs] else [])
        ++ (if custom_dependencies ≠ "" then ["\nAdditional Dependencies:\n" ++ custom_dependencies] else [])
      else [])
  ++ (if positive_prompt ≠ "" then ["\nAdditional Requirements to Include:\n" ++ positive_prompt] else [])
  ++ (if negative_prompt ≠ "" then ["\nRequirements to Avoid:\n" ++ negative_prompt] else [])
  ++ [format_git_instructions repository_url base_branch pr_title pr_description]

/-- `final_prompt = "\n".join(prompt_parts)` in `NXMonorepoNode.execute`. -/
def nx_final_prompt (project_name positive_prompt negative_prompt repository_url
    base_branch pr_title additional_apps additional_libs custom_dependencies
    pr_description : String) : String :=
  joinWith "\n" (nx_prompt_parts project_name positive_prompt negative_prompt
    repository_url base_branch pr_title additional_apps additional_libs
    custom_dependencies pr_description)

/-- `NXMonorepoNode.execute`.  Modelled from the spec: `send_to_cursor`
comes from the `code_gen_base` module, which is absent from the sources;
per the spec the assembled text is handed to the external collaborator
and whatever it returns is passed back verbatim, so the collaborator is a
function argument. -/
def NXMonorepo_execute (send_to_cursor : String → String)
    (project_name positive_prompt negative_prompt repository_url base_branch
     pr_title additional_apps additional_libs custom_dependencies
     pr_description : String) : String :=
  send_to_cursor (nx_final_prompt project_name positive_prompt negative_prompt
    repository_url base_branch pr_title additional_apps additional_libs
    custom_dependencies pr_description)

/-- The assembled prompt of the spec's assembler scenario: `project_name =
"demo"`, every optional free-text field empty, the remaining required
fields at their declared defaults. -/
def nx_demo_prompt : String :=
  nx_final_prompt "demo" "" "" "" "main" "feat: Initialize NX monorepo structure"
    "" "" "" ""

/-! ### `__init__.py`: the node loader

The package `__init__` defines the two empty process-wide mappings and
then, for each enabled key of `config["Load Nodes"]`, imports
`.Nodes.<key>` and registers every class defined in it under
`"Zuellni <key> <name>"`.  The import is an external effect: it succeeds
exactly when a module of that name exists beside the node files; it is
modelled through the list of module names actually present under
`Nodes/`.  Which classes a module defines is a further oracle
(`members`), unused in practice because no configured key names an
existing module. -/

/-- The keys of `config["Load Nodes"]` in `__init__.py` (a `config.json`
can toggle their values but can add no key, since only keys already in
the dict are copied). -/
def loadNodeKeys : List String := ["Aesthetic", "IF", "Image", "Multi", "Text"]

/-- The module files actually present under `Nodes/`. -/
def availableNodeModules : List String := ["Code2Prompt", "NXMonorepo"]

/-- The registration loop of `__init__.py` (lines 65-78): accumulate the
`NODE_CLASS_MAPPINGS` keys paired with the display names, or stop with a
`ModuleNotFoundError` message when an enabled key names no existing
module. -/
def register_loop (enabled : String → Bool) (members : String → List String)
    (available : List String) :
    List String → List (String × String) → Except String (List (String × String))
  | [], acc => .ok acc.reverse
  | key :: rest, acc =>
    if enabled key then
      if available.contains key then
        let regs := (members key).map (fun name =>
          ("Zuellni " ++ pyReplace '_' ' ' key ++ " " ++ pyReplace '_' ' ' name,
           pyReplace '_' ' ' key ++ " " ++ pyReplace '_' ' ' name))
        register_loop enabled members available rest (regs.reverse ++ acc)
      else .error ("No module named Nodes." ++ key)
    else register_loop enabled members available rest acc

/-- The mappings `__init__.py` builds at process start (identifier paired
with display name), starting from the empty dicts. -/
def register_nodes (enabled : String → Bool) (members : String → List String) :
    Except String (List (String × String)) :=
  register_loop enabled members availableNodeModules loadNodeKeys []

/-! ### Concrete fixtures used by the witnesses and counterexamples -/

/-- A record with its content field blanked; used to state that a renderer
never consults content. -/
def eraseContent (f : AnalyzedFile) : AnalyzedFile := { f with content := "" }

/-- The renderer configuration at the declared input defaults. -/
def cfgDefault : RenderConfig :=
  { repository_url := "repo", max_files := 100, max_file_size_kb := 500,
    output_format := "detailed", branch := "main", include_patterns := "",
    exclude_patterns := "", context_notes := "" }

/-- An environment whose `git.Repo.clone_from` raises. -/
def envCloneFail : RenderEnv :=
  { cloneResult := .error "fatal: repository not found", entries := [] }

/-- A small supported source file. -/
def entryA : FileEntry :=
  { path := "a.py", isfile := true, sizeBytes := 1000, readResult := .ok "print(1)" }

/-- An environment whose clone succeeds over a one-file repository. -/
def envOk : RenderEnv := { cloneResult := .ok (), entries := [entryA] }

/-- A supported file of 501 KB, over the default 500 KB cap. -/
def entryBig : FileEntry :=
  { path := "big.py", isfile := true, sizeBytes := 513024, readResult := .ok "x" }

/-- A file whose utf-8 decode raises. -/
def entryBad : FileEntry :=
  { path := "bad.py", isfile := true, sizeBytes := 10,
    readResult := .error "UnicodeDecodeError: invalid start byte" }

/-- An analyzed record with a short (< 200 characters) content. -/
def sampleShort : AnalyzedFile :=
  { path := "x/a.py", sizeBytes := 1000, content := "print(1)", lines := 1,
    extension := ".py" }

end Spec2Proof

namespace Spec2Proof

/-! Sanity checks of the primitive models on concrete values. -/

example : pySplit "a\nb\n" '\n' = ["a", "b", ""] := by decide
example : pySplit "" '\n' = [""] := by decide
example : pyStrip "  x y\t" = "x y" := by decide
example : pySplitlines "a\nb\n" = ["a", "b"] := by decide
example : pySplitlines "a\nb" = ["a", "b"] := by decide
example : pySplitlines "" = [] := by decide
example : pySplitlines "\n" = [""] := by decide
example : pySuffix "src/archive.tar.gz" = ".gz" := by decide
example : pySuffix ".env" = "" := by decide
example : pySuffix "README" = "" := by decide
example : pyStem "https://host/user/repo.git" = "repo" := by decide
example : pyParent "a/b/c.py" = "a/b" := by decide
example : pyParent "c.py" = "." := by decide
example : fnmatch "node_modules/x.js" "node_modules/**" = true := by decide
example : fnmatch "a/b/lib.min.js" "**/*.min.js" = true := by decide
example : fnmatch "a.py" "*.pyc" = false := by decide
example : fnmatch ".env.local" ".env*" = true := by decide
example : strContainsSub "hello world" "lo wo" = true := by decide
example : strContainsSub "hello" "xyz" = false := by decide
example : joinWith "\n" ["a", "b", "c"] = "a\nb\nc" := by decide

end Spec2Proof

namespace Spec2Proof

/-! ### Helper lemmas about the collection loop -/

/-- Once the accumulator has reached the cap, the loop stops at once. -/
theorem collectLoop_stop (repo_dir : String) (maxF maxKb : Nat)
    (incl excl : List String) (l : List FileEntry) (acc : List AnalyzedFile)
    (h : maxF ≤ acc.length) :
    collectLoop repo_dir maxF maxKb incl excl l acc = acc.reverse := by
  cases l with
  | nil => rfl
  | cons f rest => simp [collectLoop, h]

/-- The loop never grows the result beyond the cap. -/
theorem collectLoop_le (repo_dir : String) (maxF maxKb : Nat)
    (incl excl : List String) :
    ∀ (l : List FileEntry) (acc : List AnalyzedFile), acc.length ≤ maxF →
      (collectLoop repo_dir maxF maxKb incl excl l acc).length ≤ maxF
  | [], acc, h => by simpa [collectLoop] using h
  | f :: rest, acc, h => by
    by_cases hb : maxF ≤ acc.length
    · simpa [collectLoop, hb] using h
    · simp only [collectLoop, if_neg hb]
      cases hp : processEntry repo_dir maxKb incl excl f with
      | some r =>
          exact collectLoop_le repo_dir maxF maxKb incl excl rest (r :: acc)
            (by simpa using Nat.lt_of_not_le hb)
      | none => exact collectLoop_le repo_dir maxF maxKb incl excl rest acc h

/-- An entry the loop body rejects leaves the whole run unchanged: the
loop on a list with it is the loop on the list without it. -/
theorem collectLoop_skip (repo_dir : String) (maxF maxKb : Nat)
    (incl excl : List String) (f : FileEntry)
    (hf : processEntry repo_dir maxKb incl excl f = none) :
    ∀ (pre post : List FileEntry) (acc : List AnalyzedFile),
      collectLoop repo_dir maxF maxKb incl excl (pre ++ f :: post) acc
        = collectLoop repo_dir maxF maxKb incl excl (pre ++ post) acc
  | [], post, acc => by
    by_cases hb : maxF ≤ acc.length
    · rw [List.nil_append, List.nil_append,
        collectLoop_stop repo_dir maxF maxKb incl excl _ acc hb,
        collectLoop_stop repo_dir maxF maxKb incl excl _ acc hb]
    · simp only [List.nil_append, collectLoop, if_neg hb, hf]
  | e :: pre, post, acc => by
    by_cases hb : maxF ≤ acc.length
    · rw [List.cons_append, collectLoop_stop repo_dir maxF maxKb incl excl _ acc hb,
        List.cons_append, collectLoop_stop repo_dir maxF maxKb incl excl _ acc hb]
    · simp only [List.cons_append, collectLoop, if_neg hb]
      cases processEntry repo_dir maxKb incl excl e with
      | some r => exact collectLoop_skip repo_dir maxF maxKb incl excl f hf pre post (r :: acc)
      | none => exact collectLoop_skip repo_dir maxF maxKb incl excl f hf pre post acc

/-- `collectFiles` version of `collectLoop_skip`. -/
theorem collectFiles_skip (repo_dir : String) (maxF maxKb : Nat)
    (incl excl : List String) (f : FileEntry) (pre post : List FileEntry)
    (hf : processEntry repo_dir maxKb incl excl f = none) :
    collectFiles repo_dir (pre ++ f :: post) maxF maxKb incl excl
      = collectFiles repo_dir (pre ++ post) maxF maxKb incl excl :=
  collectLoop_skip repo_dir maxF maxKb incl excl f hf pre post []

/-! ### Claims C4, C2, C1 -/

/-- Claim C4: for every configured `max_files` value and every enumerated
file list, the renderer's accepted file count (the length of the list the
loop of `execute` accumulates, which every output format renders in full)
never exceeds `max_files`; the loop breaks as soon as the count reaches
the cap. -/
theorem claim_C4 (repo_dir : String) (entries : List FileEntry)
    (max_files max_size_kb : Nat) (include_list exclude_list : List String) :
    (collectFiles repo_dir entries max_files max_size_kb include_list exclude_list).length
      ≤ max_files :=
  collectLoop_le repo_dir max_files max_size_kb include_list exclude_list entries []
    (Nat.zero_le _)

/-- Claim C2: `execute` never propagates an exception: whenever its `try`
body raises (modelled by `execute_body` returning `.error`), the blanket
`except Exception` boundary converts the failure into the textual error
message that `execute` returns as its normal result. -/
theorem claim_C2 (env : RenderEnv) (cfg : RenderConfig) (cwd : String)
    (fs : String → Bool) (e : String)
    (h : (execute_body env cfg cwd fs).1 = .error e) :
    (Code2Prompt_execute env cfg cwd fs).1 = "Error processing repository: " ++ e := by
  unfold Code2Prompt_execute
  rcases hb : execute_body env cfg cwd fs with ⟨r, fs2⟩
  rw [hb] at h
  cases r with
  | ok o => simp at h
  | error e2 =>
      simp only at h
      cases h
      rfl

/-- Witness for C2 at a concrete failing clone. -/
theorem claim_C2_witness :
    (Code2Prompt_execute envCloneFail cfgDefault "/w" (fun _ => false)).1
      = "Error processing repository: " ++ "fatal: repository not found" :=
  claim_C2 envCloneFail cfgDefault "/w" (fun _ => false)
    "fatal: repository not found" rfl

/-- Counterexample to claim C1 as stated: a clone failure is caught by
`execute`, which returns the error text — yet the ephemeral clone
directory (created by `os.makedirs` before `git.Repo.clone_from` ran) is
still on disk when `execute` returns. -/
theorem claim_C1_counterexample :
    (Code2Prompt_execute envCloneFail cfgDefault "/w" (fun _ => false)).1
        = "Error processing repository: fatal: repository not found"
      ∧ (Code2Prompt_execute envCloneFail cfgDefault "/w" (fun _ => false)).2
          "/w/temp_repos/repo" = true :=
  ⟨rfl, rfl⟩

/-- Claim C1 as amended: on the success path `execute` removes the clone
directory before returning; but when the `try` body raises after
`clone_repository` created the directory (any clone failure does, since
`os.makedirs` precedes `git.Repo.clone_from`), `execute` returns the
error text with the directory still on disk. -/
theorem claim_C1 (env : RenderEnv) (cfg : RenderConfig) (cwd : String)
    (fs : String → Bool) :
    (env.cloneResult = .ok () →
      (Code2Prompt_execute env cfg cwd fs).2
        (cwd ++ "/temp_repos/" ++ pyStem cfg.repository_url) = false)
    ∧ (∀ e, env.cloneResult = .error e →
      (Code2Prompt_execute env cfg cwd fs).2
        (cwd ++ "/temp_repos/" ++ pyStem cfg.repository_url) = true) := by
  constructor
  · intro h
    simp [Code2Prompt_execute, execute_body, clone_repository, h]
  · intro e h
    simp [Code2Prompt_execute, execute_body, clone_repository, h]

/-- Witness for C1 (amended) at a successful and at a failing clone. -/
theorem claim_C1_witness :
    (Code2Prompt_execute envOk cfgDefault "/w" (fun _ => false)).2
        ("/w" ++ "/temp_repos/" ++ pyStem "repo") = false
      ∧ (Code2Prompt_execute envCloneFail cfgDefault "/w" (fun _ => false)).2
          ("/w" ++ "/temp_repos/" ++ pyStem "repo") = true :=
  ⟨(claim_C1 envOk cfgDefault "/w" (fun _ => false)).1 rfl,
   (claim_C1 envCloneFail cfgDefault "/w" (fun _ => false)).2
     "fatal: repository not found" rfl⟩

end Spec2Proof

namespace Spec2Proof

/-- Claim C3: the acceptance decision's precedence — any ignore/exclude
match rejects outright; otherwise a non-empty include list decides alone
(the extension set is not consulted); otherwise the supported-extension
set decides. -/
theorem claim_C3 (filepath : String) (include_patterns exclude_patterns : List String) :
    ((∃ p ∈ IGNORE_PATTERNS ++ exclude_patterns, fnmatch filepath p = true) →
        should_process_file filepath include_patterns exclude_patterns = false)
    ∧ ((∀ p ∈ IGNORE_PATTERNS ++ exclude_patterns, fnmatch filepath p = false) →
        (include_patterns ≠ [] →
          should_process_file filepath include_patterns exclude_patterns
            = include_patterns.any (fun p => fnmatch filepath p))
        ∧ (include_patterns = [] →
          should_process_file filepath include_patterns exclude_patterns
            = SUPPORTED_EXTENSIONS.contains (pySuffix filepath))) := by
  constructor
  · rintro ⟨p, hp, hm⟩
    have hany : (IGNORE_PATTERNS ++ exclude_patterns).any
        (fun pattern => fnmatch filepath pattern) = true :=
      List.any_eq_true.mpr ⟨p, hp, hm⟩
    simp [should_process_file, hany]
  · intro hnone
    have hany : (IGNORE_PATTERNS ++ exclude_patterns).any
        (fun pattern => fnmatch filepath pattern) = false := by
      simp only [List.any_eq_false]
      intro p hp
      simp [hnone p hp]
    constructor
    · intro hne
      simp [should_process_file, hany, hne]
    · intro heq
      subst heq
      simp [should_process_file, hany]

/-- Witness for C3: the fixed ignore pattern rejects a `node_modules`
path, and with no include patterns a supported extension is accepted. -/
theorem claim_C3_witness :
    should_process_file "node_modules/x.js" [] [] = false
      ∧ should_process_file "src/a.py" [] []
          = SUPPORTED_EXTENSIONS.contains (pySuffix "src/a.py") :=
  ⟨(claim_C3 "node_modules/x.js" [] []).1 ⟨"node_modules/**", by decide, by decide⟩,
   ((claim_C3 "src/a.py" [] []).2 (by decide)).2 rfl⟩

/-- Claim C5: a file whose measured size exceeds the configured cap (the
source tests `getsize(filepath)/1024 > max_size_kb`, i.e. exactly
`sizeBytes > 1024 * max_size_kb`) is rejected by `analyze_file`, leaves
the accepted list exactly as if it were absent, and hence leaves every
output format's rendering unchanged — its content never appears. -/
theorem claim_C5 (repo_dir : String) (f : FileEntry) (pre post : List FileEntry)
    (maxF maxKb : Nat) (incl excl : List String) (fmt : String)
    (hsize : 1024 * maxKb < f.sizeBytes) :
    (analyze_file (repo_dir ++ "/" ++ f.path) f maxKb).1 = none
    ∧ collectFiles repo_dir (pre ++ f :: post) maxF maxKb incl excl
        = collectFiles repo_dir (pre ++ post) maxF maxKb incl excl
    ∧ render_output fmt (collectFiles repo_dir (pre ++ f :: post) maxF maxKb incl excl)
        = render_output fmt (collectFiles repo_dir (pre ++ post) maxF maxKb incl excl) := by
  have hnone : ∀ fp : String, (analyze_file fp f maxKb).1 = none := by
    intro fp
    simp [analyze_file, hsize]
  have hpe : processEntry repo_dir maxKb incl excl f = none := by
    unfold processEntry
    by_cases hc : f.isfile && should_process_file f.path incl excl
    · simp [hc, hnone]
    · simp [hc]
  have hcoll := collectFiles_skip repo_dir maxF maxKb incl excl f pre post hpe
  exact ⟨hnone _, hcoll, by rw [hcoll]⟩

/-- Witness for C5: a 501 KB file under a 500 KB cap disappears from the
run. -/
theorem claim_C5_witness :
    (analyze_file ("/r" ++ "/" ++ entryBig.path) entryBig 500).1 = none
    ∧ collectFiles "/r" ([] ++ entryBig :: [entryA]) 10 500 [] []
        = collectFiles "/r" ([] ++ [entryA]) 10 500 [] []
    ∧ render_output "detailed" (collectFiles "/r" ([] ++ entryBig :: [entryA]) 10 500 [] [])
        = render_output "detailed" (collectFiles "/r" ([] ++ [entryA]) 10 500 [] []) :=
  claim_C5 "/r" entryBig [] [entryA] 10 500 [] [] "detailed" (by decide)

/-- Claim C10: a file that passes the pattern filter but is rejected by
`analyze_file` consumes no slot: the run is exactly the run without that
entry, so later files may be accepted in its place and the final count can
stay below `max_files` even though more entries were enumerated. -/
theorem claim_C10 (repo_dir : String) (f : FileEntry) (pre post : List FileEntry)
    (maxF maxKb : Nat) (incl excl : List String)
    (hfail : (analyze_file (repo_dir ++ "/" ++ f.path) f maxKb).1 = none) :
    collectFiles repo_dir (pre ++ f :: post) maxF maxKb incl excl
      = collectFiles repo_dir (pre ++ post) maxF maxKb incl excl
    ∧ (collectFiles repo_dir (pre ++ f :: post) maxF maxKb incl excl).length
        = (collectFiles repo_dir (pre ++ post) maxF maxKb incl excl).length := by
  have hpe : processEntry repo_dir maxKb incl excl f = none := by
    unfold processEntry
    by_cases hc : f.isfile && should_process_file f.path incl excl
    · simp [hc, hfail]
    · simp [hc]
  have hcoll := collectFiles_skip repo_dir maxF maxKb incl excl f pre post hpe
  exact ⟨hcoll, by rw [hcoll]⟩

/-- Witness for C10: with `max_files = 1`, the undecodable first entry
does not consume the only slot — the run equals the run on the later file
alone, which is accepted in its place. -/
theorem claim_C10_witness :
    collectFiles "/r" ([] ++ entryBad :: [entryA]) 1 500 [] []
        = collectFiles "/r" ([] ++ [entryA]) 1 500 [] []
    ∧ (collectFiles "/r" ([] ++ entryBad :: [entryA]) 1 500 [] []).length
        = (collectFiles "/r" ([] ++ [entryA]) 1 500 [] []).length :=
  claim_C10 "/r" entryBad [] [entryA] 1 500 [] [] rfl

/-- Counterexample to claim C7 as stated: an oversized file is indeed
skipped, but no diagnostic message is emitted for it — the oversize branch
of `analyze_file` returns `None` before the `except` block that prints is
ever reached. -/
theorem claim_C7_counterexample :
    (analyze_file "/r/big.py" entryBig 500).1 = none
      ∧ (analyze_file "/r/big.py" entryBig 500).2 = [] :=
  ⟨rfl, rfl⟩

/-- Claim C7 as amended: oversized files and undecodable files are both
skipped and both non-fatal (the loop continues over the remaining
entries exactly as if the entry were absent), but a diagnostic line is
printed only for a failed decode; the oversized file is skipped
silently. -/
theorem claim_C7 (filepath : String) (f : FileEntry) (maxKb : Nat) :
    (1024 * maxKb < f.sizeBytes → analyze_file filepath f maxKb = (none, []))
    ∧ (∀ e, ¬ (1024 * maxKb < f.sizeBytes) → f.readResult = .error e →
        analyze_file filepath f maxKb
          = (none, ["Error processing " ++ filepath ++ ": " ++ e]))
    ∧ (∀ (repo_dir : String) (pre post : List FileEntry) (maxF : Nat)
        (incl excl : List String),
        (analyze_file (repo_dir ++ "/" ++ f.path) f maxKb).1 = none →
        collectFiles repo_dir (pre ++ f :: post) maxF maxKb incl excl
          = collectFiles repo_dir (pre ++ post) maxF maxKb incl excl) := by
  refine ⟨?_, ?_, ?_⟩
  · intro hsize
    simp [analyze_file, hsize]
  · intro e hsize hread
    simp [analyze_file, hsize, hread]
  · intro repo_dir pre post maxF incl excl hfail
    have hpe : processEntry repo_dir maxKb incl excl f = none := by
      unfold processEntry
      by_cases hc : f.isfile && should_process_file f.path incl excl
      · simp [hc, hfail]
      · simp [hc]
    exact collectFiles_skip repo_dir maxF maxKb incl excl f pre post hpe

/-- Witness for C7 (amended): the undecodable file is skipped with its
diagnostic line, and processing continues past it. -/
theorem claim_C7_witness :
    analyze_file "/r/bad.py" entryBad 500
        = (none, ["Error processing " ++ "/r/bad.py" ++ ": "
            ++ "UnicodeDecodeError: invalid start byte"])
      ∧ collectFiles "/r" ([] ++ entryBad :: [entryBig, entryA]) 5 500 [] []
          = collectFiles "/r" ([] ++ [entryBig, entryA]) 5 500 [] [] :=
  ⟨(claim_C7 "/r/bad.py" entryBad 500).2.1
      "UnicodeDecodeError: invalid start byte" (by decide) rfl,
   (claim_C7 "/r/bad.py" entryBad 500).2.2 "/r" [] [entryBig, entryA] 5 [] [] rfl⟩

end Spec2Proof

namespace Spec2Proof

/-- `joinWith` on a cons with a non-empty tail. -/
theorem joinWith_cons (sep a : String) (l : List String) (h : l ≠ []) :
    joinWith sep (a :: l) = a ++ sep ++ joinWith sep l := by
  cases l with
  | nil => exact absurd rfl h
  | cons y t => rfl

/-- Any designated element of the joined list occurs verbatim inside the
joined string. -/
theorem joinWith_split (sep : String) :
    ∀ (xs : List String) (x : String) (ys : List String),
      ∃ s₁ s₂, joinWith sep (xs ++ x :: ys) = s₁ ++ x ++ s₂
  | [], x, [] => ⟨"", "", by simp [joinWith]⟩
  | [], x, y :: t =>
      ⟨"", sep ++ joinWith sep (y :: t), by
        simp [joinWith, String.append_assoc]⟩
  | a :: xs, x, ys => by
    obtain ⟨s₁, s₂, h⟩ := joinWith_split sep xs x ys
    refine ⟨a ++ sep ++ s₁, s₂, ?_⟩
    rw [List.cons_append,
      joinWith_cons sep a (xs ++ x :: ys) (by simp),
      h]
    simp [String.append_assoc]

/-- Blanking every content field does not change the architecture fold. -/
theorem foldl_archStep_eraseContent :
    ∀ (files : List AnalyzedFile) (init : List (String × Nat) × List String),
      (files.map eraseContent).foldl archStep init = files.foldl archStep init
  | [], _ => rfl
  | f :: rest, init => by
    simp only [List.map_cons, List.foldl_cons]
    exact foldl_archStep_eraseContent rest (archStep init f)

/-- Claim C6: the architecture format never consults file content (its
output is unchanged when every content field is blanked), and the summary
format renders, for each analyzed file, exactly the first 200 characters
of its content followed by an ellipsis when the content is longer than
200 characters, and the unmodified content otherwise. -/
theorem claim_C6 :
    (∀ files : List AnalyzedFile,
      generate_architecture_summary files
        = generate_architecture_summary (files.map eraseContent))
    ∧ (∀ (files : List AnalyzedFile) (f : AnalyzedFile), f ∈ files →
        ∃ s₁ s₂, generate_summary_prompt files
          = s₁ ++ (if 200 < f.content.length then pyTake f.content 200 ++ "..."
                   else f.content) ++ s₂) := by
  constructor
  · intro files
    unfold generate_architecture_summary
    rw [foldl_archStep_eraseContent]
  · intro files f hf
    obtain ⟨l₁, l₂, rfl⟩ := List.append_of_mem hf
    have hlist : "# Repository Summary\n" :: (l₁ ++ f :: l₂).flatMap summaryBlock
        = ("# Repository Summary\n" :: (l₁.flatMap summaryBlock
            ++ ["\n## " ++ f.path,
                "- Size: " ++ format2f f.sizeBytes ++ "KB",
                "- Lines: " ++ toString f.lines,
                "- Preview:",
                "```" ++ dropFirst f.extension]))
          ++ contentPreview f.content :: ("```\n" :: l₂.flatMap summaryBlock) := by
      simp [List.flatMap_append, summaryBlock]
    unfold generate_summary_prompt
    rw [hlist]
    exact joinWith_split "\n" _ (contentPreview f.content) _

/-- Witness for C6 at a one-file repository with a short content. -/
theorem claim_C6_witness :
    generate_architecture_summary [sampleShort]
        = generate_architecture_summary ([sampleShort].map eraseContent)
      ∧ ∃ s₁ s₂, generate_summary_prompt [sampleShort]
          = s₁ ++ sampleShort.content ++ s₂ :=
  ⟨claim_C6.1 [sampleShort], claim_C6.2 [sampleShort] sampleShort (by simp)⟩

end Spec2Proof

namespace Spec2Proof

/-- A string extended to the right is never equal to a strictly shorter
string. -/
theorem append_ne_of_longer (pre v target : String)
    (h : target.length < pre.length) : pre ++ v ≠ target := by
  intro he
  have hlen := congrArg String.length he
  rw [String.length_append] at hlen
  omega

/-- Claim C8: the assembler scenario — with `project_name = "demo"` and
every optional free-text field empty, the assembled prompt contains the
literal scope `@demo` and the default PR description, and contains no
`Custom Requirements` text; moreover the `Custom Requirements:` section
header is a part of the assembled prompt exactly when at least one of the
three custom fields is non-empty. -/
theorem claim_C8 :
    strContainsSub nx_demo_prompt "@demo" = true
    ∧ strContainsSub nx_demo_prompt defaultPRDescription = true
    ∧ strContainsSub nx_demo_prompt "Custom Requirements" = false
    ∧ (∀ additional_apps additional_libs custom_dependencies : String,
        "\nCustom Requirements:" ∈ nx_prompt_parts "demo" "" "" "" "main"
            "feat: Initialize NX monorepo structure" additional_apps
            additional_libs custom_dependencies ""
          ↔ (additional_apps ≠ "" ∨ additional_libs ≠ ""
              ∨ custom_dependencies ≠ "")) := by
  refine ⟨by decide, by decide, by decide, ?_⟩
  intro apps libs deps
  by_cases hg : apps ≠ "" ∨ libs ≠ "" ∨ deps ≠ ""
  · constructor
    · intro _
      exact hg
    · intro _
      simp [nx_prompt_parts, if_pos hg]
  · push_neg at hg
    obtain ⟨ha, hb, hc⟩ := hg
    subst ha
    subst hb
    subst hc
    have h1 : ¬ ("\nCustom Requirements:"
        = "# NX Monorepo Generation and PR Creation\n") := by decide
    have h2 : ¬ ("\nCustom Requirements:" = generate_base_prompt "demo") := by decide
    have h3 : ¬ ("\nCustom Requirements:"
        = format_git_instructions "" "main"
            "feat: Initialize NX monorepo structure" "") := by decide
    simp [nx_prompt_parts, h1, h2, h3]

/-- Claim C9: at process start the loader fails — with the default
configuration (all five `Load Nodes` toggles true) the very first import,
`Nodes.Aesthetic`, names no existing module and raises; and under every
possible toggle assignment the process-wide mappings end up without a
single registration, so neither `Code2Prompt` nor `NXMonorepo` is ever
registered. -/
theorem claim_C9 :
    register_nodes (fun _ => true) (fun _ => [])
        = .error "No module named Nodes.Aesthetic"
    ∧ (∀ (enabled : String → Bool) (members : String → List String)
        (regs : List (String × String)),
        register_nodes enabled members = .ok regs → regs = []) := by
  constructor
  · rfl
  · intro enabled members regs h
    have c1 : availableNodeModules.contains "Aesthetic" = false := by decide
    have c2 : availableNodeModules.contains "IF" = false := by decide
    have c3 : availableNodeModules.contains "Image" = false := by decide
    have c4 : availableNodeModules.contains "Multi" = false := by decide
    have c5 : availableNodeModules.contains "Text" = false := by decide
    simp only [register_nodes, loadNodeKeys] at h
    by_cases h1 : enabled "Aesthetic" <;>
      by_cases h2 : enabled "IF" <;>
        by_cases h3 : enabled "Image" <;>
          by_cases h4 : enabled "Multi" <;>
            by_cases h5 : enabled "Text" <;>
              simp only [register_loop, h1, h2, h3, h4, h5, c1, c2, c3, c4, c5,
                if_true, if_false, Bool.false_eq_true] at h <;>
                first
                  | exact h.symm
                  | (cases h; simp)
                  | cases h

/-- Witness for C9: with every toggle off the loader returns the empty
mapping, and the default-configuration run fails on `Nodes.Aesthetic`. -/
theorem claim_C9_witness :
    register_nodes (fun _ => true) (fun _ => [])
        = .error "No module named Nodes.Aesthetic"
      ∧ ([] : List (String × String)) = [] :=
  ⟨claim_C9.1, claim_C9.2 (fun _ => false) (fun _ => []) [] rfl⟩

end Spec2Proof
